import Mathlib

/-!
Verification of the MediGuide client (health-hub-pro React front-end and
its Supabase migrations) against its natural-language specification.

The definitions below are shallow embeddings of the relevant source
functions:

* `pollStep` / `pollRun` embed the status-polling loop of
  `ScanningScreen` (the `pollStatus` closure, its `setTimeout`
  scheduling, the `isMounted` flag and the `useEffect` cleanup).
* `apiRequest`, `uploadReport`, `deleteReport`, `handleResponse`,
  `getAuthHeaders` embed `src/lib/api.ts`.
* `reportsStatusCheck`, `reportSummariesStatusCheck`,
  `synthesisPollsWhen` embed the SQL CHECK constraints of the
  migrations and the polling condition of `ReportSynthesis.tsx`.
* `getStorageUrl` embeds the storage-URL helper of `src/lib/utils.ts`.
* `mayPerformGatedAction` models the premium gating decision (the
  backend premium service is not part of the repository sources).

Asynchronous JavaScript is modelled as a labelled transition system:
each continuation of the single-threaded event loop (a timer firing, a
fetch promise settling, the React cleanup) is one atomic step that
transforms the component state and emits a list of observable effects.
-/

/-- Screens reachable from the scanning flow (`setCurrentScreen` targets). -/
inductive Screen
  | scan
  | reportResult
  | scanError
deriving DecidableEq

/-- Observable effects emitted by the polling loop of `ScanningScreen`. -/
inductive Effect
  | setStatus (s : String)
  | setProgress (p : Nat)
  | schedulePoll (ms : Nat)
  | scheduleNav (target : Screen) (ms : Nat)
  | navigate (target : Screen)
  | toastError (msg : String)
  | sendRequest
deriving DecidableEq

/-- Events delivered to the `ScanningScreen` component by the event loop. -/
inductive Event
  | startPoll
  | pollTimerFires
  | response (st : String)
  | requestError
  | navTimerFires
  | cleanup
deriving DecidableEq

/-- State of the `ScanningScreen` component: the `isMounted` flag, the
pending 2000 ms poll timer (`timeoutId`), an in-flight
`getReportStatus` request, a pending 500 ms navigation timer (which the
cleanup does not clear), and the React `status` / `progress` state. -/
structure ScanState where
  isMounted : Bool
  pollTimerPending : Bool
  inFlight : Bool
  navTimerPending : Option Screen
  status : String
  progress : Nat
deriving DecidableEq

/-- Initial component state from the `useState` initialisers of
`ScanningScreen` (`progress = 0`, `status = 'processing'`). -/
def initialScanState : ScanState :=
  { isMounted := true, pollTimerPending := false, inFlight := false,
    navTimerPending := none, status := "processing", progress := 0 }

/-- Entry of the `pollStatus` closure: the `if (!isMounted) return;`
guard followed by issuing the `getReportStatus` request. -/
def beginPoll (s : ScanState) : ScanState × List Effect :=
  if s.isMounted then ({ s with inFlight := true }, [Effect.sendRequest])
  else (s, [])

/-- One atomic continuation of the `ScanningScreen` polling loop.
Each branch is a direct transcription of `pollStatus`, the two inner
500 ms `setTimeout` callbacks, and the `useEffect` cleanup. -/
def pollStep (s : ScanState) (e : Event) : ScanState × List Effect :=
  match e with
  | Event.startPoll => beginPoll s
  | Event.pollTimerFires =>
      if s.pollTimerPending then beginPoll { s with pollTimerPending := false }
      else (s, [])
  | Event.response st =>
      if s.inFlight then
        let s1 := { s with inFlight := false }
        if s1.isMounted then
          let s2 := { s1 with status := st }
          if st = "processing" then
            ({ s2 with progress := min (s2.progress + 5) 90, pollTimerPending := true },
             [Effect.setStatus st, Effect.setProgress (min (s.progress + 5) 90),
              Effect.schedulePoll 2000])
          else if st = "completed" then
            ({ s2 with progress := 100, navTimerPending := some Screen.reportResult },
             [Effect.setStatus st, Effect.setProgress 100,
              Effect.scheduleNav Screen.reportResult 500])
          else if st = "failed" then
            ({ s2 with navTimerPending := some Screen.scanError },
             [Effect.setStatus st,
              Effect.toastError "Report processing failed. Please try again.",
              Effect.scheduleNav Screen.scanError 500])
          else (s2, [Effect.setStatus st])
        else (s1, [])
      else (s, [])
  | Event.requestError =>
      if s.inFlight then
        let s1 := { s with inFlight := false }
        if s1.isMounted then
          ({ s1 with pollTimerPending := true }, [Effect.schedulePoll 2000])
        else (s1, [])
      else (s, [])
  | Event.navTimerFires =>
      match s.navTimerPending with
      | some sc =>
          let s1 := { s with navTimerPending := none }
          if s1.isMounted then (s1, [Effect.navigate sc]) else (s1, [])
      | none => (s, [])
  | Event.cleanup =>
      ({ s with isMounted := false, pollTimerPending := false }, [])

/-- Run a sequence of event-loop continuations, collecting all effects. -/
def pollRun (s : ScanState) (evs : List Event) : ScanState × List Effect :=
  match evs with
  | [] => (s, [])
  | e :: rest =>
      let p := pollStep s e
      let q := pollRun p.1 rest
      (q.1, p.2 ++ q.2)

/-- A component state after the `useEffect` cleanup has run: the
`isMounted` flag is false and the poll timer has been cleared. -/
def pollClosed (s : ScanState) : Prop :=
  s.isMounted = false ∧ s.pollTimerPending = false

/-- The fields of a parsed JSON response body that `api.ts` inspects
(the backend error shape is `{error, message, code}`); a missing field
is `none`. -/
structure ErrorBody where
  error : Option String
  message : Option String
  code : Option String
deriving DecidableEq

/-- Value an `apiRequest` promise resolves with: the empty object
returned on a 204, or a parsed JSON body. -/
inductive Payload
  | emptyObject
  | parsed (body : ErrorBody)
deriving DecidableEq

/-- Outcome of an `apiRequest` / `uploadReport` promise: resolution,
a thrown `Error` with its message, or rejection of the final
`response.json()` on an unparsable success body. -/
inductive ApiResult
  | ok (p : Payload)
  | thrown (msg : String)
  | parseRejected
deriving DecidableEq

/-- An HTTP response as `api.ts` observes it: numeric status,
`statusText`, and the JSON body (`none` when the body fails to parse). -/
structure HttpResponse where
  status : Nat
  statusText : String
  body : Option ErrorBody
deriving DecidableEq

/-- The `response.ok` accessor of the fetch API: status in 200..299. -/
def respOk (status : Nat) : Bool :=
  decide (200 ≤ status) && decide (status < 300)

/-- Message of the `Error` thrown by `apiRequest` on a non-ok response:
`error.message || 'API request failed: ' + statusText` where a failed
body parse is replaced by `{ message: 'Request failed' }`. -/
def errorThrownMessage (statusText : String) (body : Option ErrorBody) : String :=
  let parsed := body.getD { error := none, message := some "Request failed", code := none }
  match parsed.message with
  | some m => if m = "" then "API request failed: " ++ statusText else m
  | none => "API request failed: " ++ statusText

/-- Response handling of `apiRequest` (lines 43-53 of `api.ts`); the
second component counts `response.json()` parse attempts. -/
def handleResponse (r : HttpResponse) : ApiResult × Nat :=
  if respOk r.status then
    if r.status = 204 then (ApiResult.ok Payload.emptyObject, 0)
    else
      match r.body with
      | some b => (ApiResult.ok (Payload.parsed b), 1)
      | none => (ApiResult.parseRejected, 1)
  else (ApiResult.thrown (errorThrownMessage r.statusText r.body), 1)

/-- First value associated with a header name, searching left to right. -/
def headerLookup (k : String) (hs : List (String × String)) : Option String :=
  match hs with
  | [] => none
  | kv :: rest => if kv.1 = k then some kv.2 else headerLookup k rest

/-- The object spread `{...headers, ...options.headers}`: keys of
`extra` override keys of `base`. -/
def mergeHeaders (base extra : List (String × String)) : List (String × String) :=
  base.filter (fun kv => (headerLookup kv.1 extra).isNone) ++ extra

/-- `getAuthHeaders` of `api.ts`: throws when there is no session
access token, otherwise yields the Authorization and Content-Type
headers. The argument is `session?.access_token`. -/
def getAuthHeaders (accessToken : Option String) :
    Except String (List (String × String)) :=
  match accessToken with
  | none => Except.error "Not authenticated. Please log in."
  | some tok =>
      Except.ok [("Authorization", "Bearer " ++ tok),
                 ("Content-Type", "application/json")]

/-- A fetch call as issued by the client: URL, method and headers. -/
structure FetchCall where
  url : String
  method : String
  headers : List (String × String)
deriving DecidableEq

/-- Observable outcome of one client API operation: the promise result,
the fetch calls actually issued, and the JSON parse attempts made. -/
structure ApiOutcome where
  result : ApiResult
  fetches : List FetchCall
  parseAttempts : Nat
deriving DecidableEq

/-- Fallback backend base URL of `api.ts` (`VITE_API_URL` unset). -/
def API_BASE_URL : String := "http://localhost:8000/api/v1"

/-- The generic `apiRequest` helper of `api.ts`: resolve auth headers
(throwing before any network traffic when unauthenticated), issue one
fetch with the merged headers, and handle the response. -/
def apiRequest (accessToken : Option String) (endpoint : String)
    (method : String) (optionHeaders : List (String × String))
    (resp : HttpResponse) : ApiOutcome :=
  match getAuthHeaders accessToken with
  | Except.error msg => { result := ApiResult.thrown msg, fetches := [], parseAttempts := 0 }
  | Except.ok headers =>
      let call : FetchCall :=
        { url := API_BASE_URL ++ endpoint, method := method,
          headers := mergeHeaders headers optionHeaders }
      let hr := handleResponse resp
      { result := hr.1, fetches := [call], parseAttempts := hr.2 }

/-- Message of the `Error` thrown by `uploadReport` on a non-ok
response: `error.message || 'Upload failed'` with parse-failure
fallback `{ message: 'Upload failed' }`. -/
def uploadErrorMessage (body : Option ErrorBody) : String :=
  let parsed := body.getD { error := none, message := some "Upload failed", code := none }
  match parsed.message with
  | some m => if m = "" then "Upload failed" else m
  | none => "Upload failed"

/-- `uploadReport` of `api.ts`: checks the session before any network
request, then issues one POST with only the Authorization header. -/
def uploadReport (accessToken : Option String) (resp : HttpResponse) : ApiOutcome :=
  match accessToken with
  | none =>
      { result := ApiResult.thrown "Not authenticated. Please log in.",
        fetches := [], parseAttempts := 0 }
  | some tok =>
      let call : FetchCall :=
        { url := API_BASE_URL ++ "/reports/upload", method := "POST",
          headers := [("Authorization", "Bearer " ++ tok)] }
      if respOk resp.status then
        match resp.body with
        | some b =>
            { result := ApiResult.ok (Payload.parsed b), fetches := [call],
              parseAttempts := 1 }
        | none =>
            { result := ApiResult.parseRejected, fetches := [call],
              parseAttempts := 1 }
      else
        { result := ApiResult.thrown (uploadErrorMessage resp.body),
          fetches := [call], parseAttempts := 1 }

/-- `deleteReport` of `api.ts`: a DELETE through `apiRequest`. -/
def deleteReport (accessToken : Option String) (reportId : String)
    (resp : HttpResponse) : ApiOutcome :=
  apiRequest accessToken ("/reports/" ++ reportId) "DELETE" [] resp

/-- Toast shown by the `handleScan` catch branch of `ScanScreen`:
`toast.error(error.message || 'Failed to upload report. Please try again.')`. -/
def scanToastMessage (msg : String) : String :=
  if msg = "" then "Failed to upload report. Please try again." else msg

/-- CHECK constraint on `reports.status` from the database schema
(`CHECK (status IN ('processing', 'completed', 'failed'))`). -/
def reportsStatusCheck (s : String) : Bool :=
  s = "processing" || s = "completed" || s = "failed"

/-- CHECK constraint `check_status` on `report_summaries.status` from
migration `003_update_report_summaries_status.sql`
(`CHECK (status IN ('pending', 'completed', 'failed'))`). -/
def reportSummariesStatusCheck (s : String) : Bool :=
  s = "pending" || s = "completed" || s = "failed"

/-- The status union type declared on `getReportStatus` and
`getReport` in `api.ts`: `'processing' | 'completed' | 'failed'`. -/
def getReportStatusStatusValues : List String :=
  ["processing", "completed", "failed"]

/-- Polling condition of `ReportSynthesis.tsx`: an interval is started
exactly when `synthesis?.status === 'pending'`. -/
def synthesisPollsWhen (s : String) : Bool := s = "pending"

/-- Modelled from the spec: the premium gating decision of the backend
premium service (`services/premium_service.py` exists only in the
design documents, not among the sources). The spec calls it "a simple
counter comparison": a used count against the corresponding limit,
where a `null` limit means unlimited. -/
def mayPerformGatedAction (used : Int) (limit : Option Int) : Bool :=
  match limit with
  | none => true
  | some l => decide (used < l)

/-- Free-tier limits shown in the `PremiumModal` comparison table:
3 monthly scans and 2 family members. -/
def freeMonthlyScansLimit : Int := 3

/-- Free-tier family-member limit from the `PremiumModal` table. -/
def freeFamilyMembersLimit : Int := 2

/-- The client-side remaining-scans computation from the
`checkPremiumStatus` snippet of `BACKEND_EXPLANATION.md`:
`status.reports_limit ? status.reports_limit - status.reports_used_this_month : null`
(a JavaScript conditional, so a limit of 0 is falsy). -/
def freeScansLeft (reportsLimit : Option Int) (used : Int) : Option Int :=
  match reportsLimit with
  | none => none
  | some l => if l = 0 then none else some (l - used)

/-- Character-list version of `String.startsWith` used to embed the
string tests of `getStorageUrl`. -/
def strStarts : List Char → List Char → Bool
  | [], _ => true
  | _ :: _, [] => false
  | a :: ps, b :: ss => a = b && strStarts ps ss

/-- The literal `'http://'`. -/
def HTTP : List Char := "http://".toList

/-- The literal `'https://'`. -/
def HTTPS : List Char := "https://".toList

/-- The storage object path segment of `getStorageUrl`. -/
def STORAGE_PATH : List Char :=
  "/storage/v1/object/public/medical-reports/".toList

/-- The `path.startsWith('/') ? path.slice(1) : path` step of
`getStorageUrl`. -/
def cleanPath (p : List Char) : List Char :=
  match p with
  | '/' :: rest => rest
  | _ => p

/-- `getStorageUrl` of `src/lib/utils.ts`, with the environment value
`VITE_SUPABASE_URL` as a parameter; a `none` path stands for the
JavaScript `null`/`undefined` arguments. -/
def getStorageUrl (supabaseUrl : List Char) (path : Option (List Char)) : List Char :=
  match path with
  | none => []
  | some p =>
      if p = [] then []
      else if strStarts HTTP p || strStarts HTTPS p then p
      else supabaseUrl ++ STORAGE_PATH ++ cleanPath p

/-- A backend error body of the documented shape `{error, message, code}`
(the `PREMIUM_REQUIRED` example from the design documents). -/
def premiumErrorBody : ErrorBody :=
  { error := some "PREMIUM_REQUIRED",
    message := some "This feature requires a premium subscription",
    code := some "PREMIUM_REQUIRED" }

/-- The same body with different `error` and `code` fields. -/
def premiumErrorBodyVariant : ErrorBody :=
  { error := some "QUOTA_EXCEEDED",
    message := some "This feature requires a premium subscription",
    code := some "QUOTA_EXCEEDED" }

/-!  Helper lemmas. -/

/-- Any step taken from a cleaned-up state emits no effect and stays
cleaned up. -/
theorem pollClosed_step (s : ScanState) (e : Event) (h : pollClosed s) :
    pollClosed (pollStep s e).1 ∧ (pollStep s e).2 = [] := by
  obtain ⟨hm, ht⟩ := h
  cases e <;>
    simp_all [pollStep, beginPoll, pollClosed] <;>
    split <;> simp_all [pollClosed]

/-- Any event sequence run from a cleaned-up state emits no effect. -/
theorem pollClosed_run (s : ScanState) (evs : List Event) (h : pollClosed s) :
    (pollRun s evs).2 = [] := by
  induction evs generalizing s with
  | nil => simp [pollRun]
  | cons e rest ih =>
      have hs := pollClosed_step s e h
      simp [pollRun, hs.2, ih _ hs.1]

/-- C1: while the component is mounted and a status poll resolves, the
loop handles the status as follows and in no other way. A `processing`
status bumps the progress estimate and keeps polling; a `completed`
status sets progress to 100 and schedules navigation to the
report-result screen (performed when that timer fires); a `failed`
status shows the error toast and schedules navigation to the scan-error
screen; any other status only records the raw status, with no polling,
navigation or toast. -/
theorem C1_poll_status_transitions (s : ScanState) (st : String)
    (hm : s.isMounted = true) (hf : s.inFlight = true) :
    (st = "processing" →
        (pollStep s (Event.response st)).2 =
          [Effect.setStatus st, Effect.setProgress (min (s.progress + 5) 90),
           Effect.schedulePoll 2000]
      ∧ (pollStep s (Event.response st)).1.pollTimerPending = true)
  ∧ (st = "completed" →
        (pollStep s (Event.response st)).2 =
          [Effect.setStatus st, Effect.setProgress 100,
           Effect.scheduleNav Screen.reportResult 500]
      ∧ (pollStep s (Event.response st)).1.navTimerPending = some Screen.reportResult
      ∧ (pollStep s (Event.response st)).1.progress = 100
      ∧ (pollStep s (Event.response st)).1.pollTimerPending = s.pollTimerPending)
  ∧ (st = "failed" →
        (pollStep s (Event.response st)).2 =
          [Effect.setStatus st,
           Effect.toastError "Report processing failed. Please try again.",
           Effect.scheduleNav Screen.scanError 500]
      ∧ (pollStep s (Event.response st)).1.navTimerPending = some Screen.scanError
      ∧ (pollStep s (Event.response st)).1.pollTimerPending = s.pollTimerPending)
  ∧ (st ≠ "processing" → st ≠ "completed" → st ≠ "failed" →
        pollStep s (Event.response st) =
          ({ s with inFlight := false, status := st }, [Effect.setStatus st]))
  ∧ (∀ sc, s.navTimerPending = some sc →
        pollStep s Event.navTimerFires =
          ({ s with navTimerPending := none }, [Effect.navigate sc])) := by
  refine ⟨?_, ?_, ?_, ?_, ?_⟩
  · intro h; subst h; simp [pollStep, hm, hf]
  · intro h; subst h; simp [pollStep, hm, hf]
  · intro h; subst h; simp [pollStep, hm, hf]
  · intro h1 h2 h3; simp [pollStep, hm, hf, h1, h2, h3]
  · intro sc hsc; simp [pollStep, hsc, hm]

/-- Witness for C1: in a mounted state with a poll in flight, a
`completed` response sets progress to 100 and schedules navigation to
the report-result screen. -/
theorem C1_poll_status_transitions_witness :
    (pollStep { initialScanState with inFlight := true }
        (Event.response "completed")).2 =
      [Effect.setStatus "completed", Effect.setProgress 100,
       Effect.scheduleNav Screen.reportResult 500] :=
  ((C1_poll_status_transitions { initialScanState with inFlight := true }
      "completed" rfl rfl).2.1 rfl).1

/-- C3: a successful poll that returns `processing` while the component
is mounted schedules the next poll exactly 2000 milliseconds later, and
schedules nothing at any other delay. -/
theorem C3_poll_cadence_2000ms (s : ScanState)
    (hm : s.isMounted = true) (hf : s.inFlight = true) :
    (pollStep s (Event.response "processing")).2 =
      [Effect.setStatus "processing",
       Effect.setProgress (min (s.progress + 5) 90),
       Effect.schedulePoll 2000]
  ∧ (pollStep s (Event.response "processing")).1.pollTimerPending = true
  ∧ (∀ ms, Effect.schedulePoll ms ∈ (pollStep s (Event.response "processing")).2 →
        ms = 2000) := by
  refine ⟨?_, ?_, ?_⟩
  · simp [pollStep, hm, hf]
  · simp [pollStep, hm, hf]
  · intro ms h
    simp [pollStep, hm, hf] at h
    exact h

/-- Witness for C3: the initial mounted state with a poll in flight. -/
theorem C3_poll_cadence_2000ms_witness :
    (pollStep { initialScanState with inFlight := true }
        (Event.response "processing")).2 =
      [Effect.setStatus "processing", Effect.setProgress 5,
       Effect.schedulePoll 2000] :=
  (C3_poll_cadence_2000ms { initialScanState with inFlight := true } rfl rfl).1

/-- C4: from any state, running the `useEffect` cleanup clears the
mounted flag and the pending poll timer, emits nothing, and after it no
event sequence — timers firing, responses or errors arriving — emits
any effect: no poll is scheduled, no request sent, and no navigation,
toast or state update is performed by the polling loop. -/
theorem C4_cleanup_halts_polling (s : ScanState) (evs : List Event) :
    (pollStep s Event.cleanup).1.isMounted = false
  ∧ (pollStep s Event.cleanup).1.pollTimerPending = false
  ∧ (pollStep s Event.cleanup).2 = []
  ∧ (pollRun (pollStep s Event.cleanup).1 evs).2 = [] := by
  refine ⟨by simp [pollStep], by simp [pollStep], by simp [pollStep], ?_⟩
  exact pollClosed_run _ evs (by simp [pollStep, pollClosed])

/-- Counterexample to C5: the claim says a failed API request is never
retried and the failure is only surfaced, but when a status poll fails
while the scanning screen is mounted, the catch branch surfaces nothing
and schedules the same `getReportStatus` request again 2000 ms later —
and when that timer fires, the request is indeed re-issued. -/
theorem C5_counterexample :
    (pollStep { initialScanState with inFlight := true } Event.requestError).2 =
      [Effect.schedulePoll 2000]
  ∧ (pollStep { initialScanState with inFlight := true }
        Event.requestError).1.pollTimerPending = true
  ∧ (pollRun { initialScanState with inFlight := true }
        [Event.requestError, Event.pollTimerFires]).2 =
      [Effect.schedulePoll 2000, Effect.sendRequest] := by
  refine ⟨rfl, rfl, rfl⟩

/-- C5 as amended: the API client itself has no retry policy — each
`apiRequest` or `uploadReport` call issues at most one fetch — but the
status-polling loop is an exception to "the failure is only surfaced":
a failed status poll while mounted surfaces nothing and schedules
another poll of the same endpoint 2000 ms later. -/
theorem C5_no_retry_in_client_but_poll_retries (accessToken : Option String)
    (endpoint method : String) (opts : List (String × String))
    (resp : HttpResponse) (s : ScanState)
    (hm : s.isMounted = true) (hf : s.inFlight = true) :
    (apiRequest accessToken endpoint method opts resp).fetches.length ≤ 1
  ∧ (uploadReport accessToken resp).fetches.length ≤ 1
  ∧ (pollStep s Event.requestError).2 = [Effect.schedulePoll 2000]
  ∧ (pollStep s Event.requestError).1.pollTimerPending = true := by
  refine ⟨?_, ?_, ?_, ?_⟩
  · cases accessToken <;> simp [apiRequest, getAuthHeaders]
  · cases accessToken with
    | none => simp [uploadReport]
    | some tok =>
        simp only [uploadReport]
        split
        · split <;> simp
        · simp
  · simp [pollStep, hm, hf]
  · simp [pollStep, hm, hf]

/-- Witness for the amended C5. -/
theorem C5_no_retry_in_client_but_poll_retries_witness :
    (pollStep { initialScanState with inFlight := true } Event.requestError).2 =
      [Effect.schedulePoll 2000] :=
  (C5_no_retry_in_client_but_poll_retries none "/reports" "GET" []
    { status := 500, statusText := "Internal Server Error", body := none }
    { initialScanState with inFlight := true } rfl rfl).2.2.1

/-- Counterexample to C2: the status value `pending` is accepted by the
`check_status` constraint on the `report_summaries` table (and is the
very value `ReportSynthesis` polls on at the client boundary), yet it
is outside the claimed set `{processing, completed, failed}` — the set
enforced on `reports.status` and declared on `getReportStatus`. -/
theorem C2_counterexample :
    reportSummariesStatusCheck "pending" = true
  ∧ synthesisPollsWhen "pending" = true
  ∧ reportsStatusCheck "pending" = false
  ∧ "pending" ∉ getReportStatusStatusValues := by
  refine ⟨rfl, rfl, rfl, by decide⟩

/-- C2 as amended: the statuses of `getReportStatus` / `getReport` and
of the `reports` table rows range over `{processing, completed,
failed}`, but the summary rows (`report_summaries.status`) instead
range over `{pending, completed, failed}`, and `pending` also reaches
the client boundary: `ReportSynthesis` polls exactly while the
synthesis status is `pending`. -/
theorem C2_status_enum_membership (s : String) :
    (reportsStatusCheck s = true ↔
        s = "processing" ∨ s = "completed" ∨ s = "failed")
  ∧ (s ∈ getReportStatusStatusValues ↔
        s = "processing" ∨ s = "completed" ∨ s = "failed")
  ∧ (reportSummariesStatusCheck s = true ↔
        s = "pending" ∨ s = "completed" ∨ s = "failed")
  ∧ (synthesisPollsWhen s = true ↔ s = "pending") := by
  refine ⟨?_, ?_, ?_, ?_⟩ <;>
    simp [reportsStatusCheck, getReportStatusStatusValues,
      reportSummariesStatusCheck, synthesisPollsWhen, or_assoc]

/-- Counterexample to C6: two non-ok responses whose bodies differ in
both the `error` and the `code` field produce identical thrown errors,
and the thrown message is exactly the body's `message` string — so the
`Error` thrown by `apiRequest` does not carry the body's `error` and
`code` information. -/
theorem C6_counterexample :
    premiumErrorBody.code ≠ premiumErrorBodyVariant.code
  ∧ premiumErrorBody.error ≠ premiumErrorBodyVariant.error
  ∧ handleResponse
        { status := 403, statusText := "Forbidden", body := some premiumErrorBody }
      = handleResponse
        { status := 403, statusText := "Forbidden", body := some premiumErrorBodyVariant }
  ∧ (handleResponse
        { status := 403, statusText := "Forbidden", body := some premiumErrorBody }).1
      = ApiResult.thrown "This feature requires a premium subscription" := by
  refine ⟨by decide, by decide, rfl, rfl⟩

/-- C6 as amended: for every non-ok response, `apiRequest` throws an
`Error` whose message is the body's `message` field when it is present
and non-empty — the `error` and `code` fields are discarded — falling
back to `Request failed` when the body cannot be parsed and to
`API request failed: <statusText>` when the message is missing or
empty; the thrown message is never empty, so the `ScanScreen` catch
branch displays exactly it as an error toast. -/
theorem C6_error_surfacing (status : Nat) (statusText : String)
    (body : Option ErrorBody) (h : respOk status = false) :
    (handleResponse { status := status, statusText := statusText, body := body }).1
      = ApiResult.thrown (errorThrownMessage statusText body)
  ∧ (body = none → errorThrownMessage statusText body = "Request failed")
  ∧ (∀ b m, body = some b → b.message = some m → m ≠ "" →
        errorThrownMessage statusText body = m)
  ∧ (∀ b, body = some b → (b.message = none ∨ b.message = some "") →
        errorThrownMessage statusText body = "API request failed: " ++ statusText)
  ∧ errorThrownMessage statusText body ≠ ""
  ∧ scanToastMessage (errorThrownMessage statusText body)
      = errorThrownMessage statusText body := by
  have happ : ∀ t : String, "API request failed: " ++ t ≠ "" := by
    intro t he
    have h2 := congrArg String.length he
    rw [String.length_append] at h2
    have h3 : "API request failed: ".length = 20 := rfl
    rw [h3] at h2
    simp at h2
  have hne : errorThrownMessage statusText body ≠ "" := by
    simp only [errorThrownMessage]
    cases body with
    | none => simp
    | some b =>
        cases hbm : b.message with
        | none => simpa [hbm] using happ statusText
        | some m =>
            by_cases hm : m = "" <;> simp [hbm, hm]
            exact happ statusText
  refine ⟨?_, ?_, ?_, ?_, hne, ?_⟩
  · simp [handleResponse, h]
  · intro hb; subst hb; simp [errorThrownMessage]
  · intro b m hb hbm hm; subst hb; simp [errorThrownMessage, hbm, hm]
  · intro b hb hbm; subst hb
    rcases hbm with hbm | hbm <;> simp [errorThrownMessage, hbm]
  · simp [scanToastMessage, hne]

/-- Witness for the amended C6: a 500 response with an unparsable body
throws `Request failed`, which the toast shows verbatim. -/
theorem C6_error_surfacing_witness :
    (handleResponse
        { status := 500, statusText := "Internal Server Error", body := none }).1
      = ApiResult.thrown (errorThrownMessage "Internal Server Error" none)
  ∧ errorThrownMessage "Internal Server Error" none = "Request failed" :=
  ⟨(C6_error_surfacing 500 "Internal Server Error" none (by decide)).1,
   (C6_error_surfacing 500 "Internal Server Error" none (by decide)).2.1 rfl⟩

/-- C7: every fetch issued by the API client carries
`Authorization: Bearer <session access token>` (no call site overrides
that header), and when there is no session access token both
`apiRequest` and `uploadReport` throw
`Not authenticated. Please log in.` without issuing any fetch. -/
theorem C7_bearer_token_auth (endpoint method : String)
    (opts : List (String × String)) (resp : HttpResponse)
    (hopts : headerLookup "Authorization" opts = none) :
    ((apiRequest none endpoint method opts resp).result
        = ApiResult.thrown "Not authenticated. Please log in."
      ∧ (apiRequest none endpoint method opts resp).fetches = []
      ∧ (uploadReport none resp).result
        = ApiResult.thrown "Not authenticated. Please log in."
      ∧ (uploadReport none resp).fetches = [])
  ∧ ∀ tok : String,
      (∀ c ∈ (apiRequest (some tok) endpoint method opts resp).fetches,
          headerLookup "Authorization" c.headers = some ("Bearer " ++ tok))
    ∧ (∀ c ∈ (uploadReport (some tok) resp).fetches,
          headerLookup "Authorization" c.headers = some ("Bearer " ++ tok)) := by
  constructor
  · exact ⟨rfl, rfl, rfl, rfl⟩
  · intro tok
    constructor
    · intro c hc
      simp [apiRequest, getAuthHeaders] at hc
      subst hc
      simp [mergeHeaders, List.filter_cons, hopts, headerLookup]
    · intro c hc
      simp only [uploadReport] at hc
      split at hc
      · split at hc <;> simp at hc <;> subst hc <;> simp [headerLookup]
      · simp at hc; subst hc; simp [headerLookup]

/-- Witness for C7: a GET of a status endpoint with no extra headers,
under a missing session and under a concrete token. -/
theorem C7_bearer_token_auth_witness :
    (apiRequest none "/reports/abc/status" "GET" []
        { status := 200, statusText := "OK", body := none }).fetches = []
  ∧ ∀ c ∈ (apiRequest (some "tok123") "/reports/abc/status" "GET" []
        { status := 200, statusText := "OK", body := none }).fetches,
      headerLookup "Authorization" c.headers = some ("Bearer " ++ "tok123") :=
  ⟨(C7_bearer_token_auth "/reports/abc/status" "GET" []
      { status := 200, statusText := "OK", body := none } rfl).1.2.1,
   ((C7_bearer_token_auth "/reports/abc/status" "GET" []
      { status := 200, statusText := "OK", body := none } rfl).2 "tok123").1⟩

/-- C8: premium gating is a counter comparison. A `null` limit
(premium tier) always allows the action; a non-null limit allows it
exactly when the used count is below the limit; and for a non-zero
limit this agrees with the client's `freeScansLeft` computation
(`limit - used`, positive). At the free-tier limits shown in
`PremiumModal` (3 monthly scans, 2 family members) a user who has used
up the allowance is blocked. -/
theorem C8_premium_gating_counter_comparison (used limit : Int)
    (hl : limit ≠ 0) :
    mayPerformGatedAction used none = true
  ∧ (mayPerformGatedAction used (some limit) = true ↔ used < limit)
  ∧ freeScansLeft (some limit) used = some (limit - used)
  ∧ (mayPerformGatedAction used (some limit) = true ↔
        ∃ n, freeScansLeft (some limit) used = some n ∧ 0 < n)
  ∧ mayPerformGatedAction freeMonthlyScansLimit (some freeMonthlyScansLimit) = false
  ∧ mayPerformGatedAction freeFamilyMembersLimit (some freeFamilyMembersLimit) = false := by
  refine ⟨rfl, by simp [mayPerformGatedAction], by simp [freeScansLeft, hl], ?_,
    by decide, by decide⟩
  simp [mayPerformGatedAction, freeScansLeft, hl]

/-- Witness for C8: one used scan against the free limit of three. -/
theorem C8_premium_gating_counter_comparison_witness :
    mayPerformGatedAction 1 (some 3) = true ↔ (1 : Int) < 3 :=
  (C8_premium_gating_counter_comparison 1 3 (by decide)).2.1

/-- C9: a 204 response makes `apiRequest` resolve with the empty
object without attempting to parse a JSON body, whatever the endpoint,
method, extra headers or body; in particular `deleteReport` (a DELETE
through `apiRequest`) resolves with the empty payload on a 204. -/
theorem C9_204_resolves_empty_object (statusText : String)
    (body : Option ErrorBody) (tok endpoint method reportId : String)
    (opts : List (String × String)) :
    handleResponse { status := 204, statusText := statusText, body := body }
      = (ApiResult.ok Payload.emptyObject, 0)
  ∧ (apiRequest (some tok) endpoint method opts
        { status := 204, statusText := statusText, body := body }).result
      = ApiResult.ok Payload.emptyObject
  ∧ (apiRequest (some tok) endpoint method opts
        { status := 204, statusText := statusText, body := body }).parseAttempts = 0
  ∧ (deleteReport (some tok) reportId
        { status := 204, statusText := statusText, body := body }).result
      = ApiResult.ok Payload.emptyObject
  ∧ (deleteReport (some tok) reportId
        { status := 204, statusText := statusText, body := body }).parseAttempts = 0
  ∧ (deleteReport (some tok) reportId
        { status := 204, statusText := statusText, body := body }).fetches.map
        FetchCall.method = ["DELETE"] := by
  have h204 : handleResponse { status := 204, statusText := statusText, body := body }
      = (ApiResult.ok Payload.emptyObject, 0) := by
    simp [handleResponse, respOk]
  refine ⟨h204, ?_, ?_, ?_, ?_, ?_⟩ <;>
    simp [deleteReport, apiRequest, getAuthHeaders, h204]

/-- A character-list prefix of `s` is also one of `s ++ t`. -/
theorem strStarts_append_right (p s t : List Char) (h : strStarts p s = true) :
    strStarts p (s ++ t) = true := by
  induction p generalizing s with
  | nil => simp [strStarts]
  | cons a ps ih =>
      cases s with
      | nil => simp [strStarts] at h
      | cons b ss =>
          simp [strStarts] at h ⊢
          exact ⟨h.1, ih ss h.2⟩

/-- A list with a non-empty prefix is non-empty. -/
theorem strStarts_ne_nil (p s : List Char) (hp : p ≠ []) (h : strStarts p s = true) :
    s ≠ [] := by
  cases p with
  | nil => exact absurd rfl hp
  | cons a ps =>
      cases s with
      | nil => simp [strStarts] at h
      | cons b ss => simp

/-- C10: `getStorageUrl` is total and idempotent, provided the
configured Supabase base URL itself starts with `http://` or
`https://`. A `null`/`undefined`/empty path yields the empty string; a
path already starting with `http://` or `https://` is returned
unchanged; any other non-empty path is turned into a URL that starts
with the base URL's scheme; and applying the function to its own
output returns that output unchanged. -/
theorem C10_getStorageUrl_total_idempotent (supabaseUrl p : List Char)
    (hsu : strStarts HTTP supabaseUrl = true ∨ strStarts HTTPS supabaseUrl = true) :
    getStorageUrl supabaseUrl none = []
  ∧ getStorageUrl supabaseUrl (some []) = []
  ∧ ((strStarts HTTP p || strStarts HTTPS p) = true →
        getStorageUrl supabaseUrl (some p) = p)
  ∧ (p ≠ [] → (strStarts HTTP p || strStarts HTTPS p) = false →
        getStorageUrl supabaseUrl (some p)
          = supabaseUrl ++ STORAGE_PATH ++ cleanPath p
      ∧ (strStarts HTTP (getStorageUrl supabaseUrl (some p))
          || strStarts HTTPS (getStorageUrl supabaseUrl (some p))) = true)
  ∧ (∀ q : Option (List Char),
        getStorageUrl supabaseUrl (some (getStorageUrl supabaseUrl q))
          = getStorageUrl supabaseUrl q) := by
  have hsu_ne : supabaseUrl ≠ [] := by
    rcases hsu with h | h
    · exact strStarts_ne_nil HTTP supabaseUrl (by decide) h
    · exact strStarts_ne_nil HTTPS supabaseUrl (by decide) h
  have hbuilt : ∀ r : List Char,
      (strStarts HTTP (supabaseUrl ++ r) || strStarts HTTPS (supabaseUrl ++ r)) = true := by
    intro r
    rcases hsu with h | h
    · simp [strStarts_append_right HTTP supabaseUrl r h]
    · simp [strStarts_append_right HTTPS supabaseUrl r h]
  have hbuilt_ne : ∀ r : List Char, supabaseUrl ++ r ≠ [] := by
    intro r hr
    exact hsu_ne (List.append_eq_nil.mp hr).1
  have hhttp : ∀ x : List Char, (strStarts HTTP x || strStarts HTTPS x) = true →
      x ≠ [] := by
    intro x hx
    rcases Bool.or_eq_true_iff.mp hx with h | h
    · exact strStarts_ne_nil HTTP x (by decide) h
    · exact strStarts_ne_nil HTTPS x (by decide) h
  have hid : ∀ x : List Char, (strStarts HTTP x || strStarts HTTPS x) = true →
      getStorageUrl supabaseUrl (some x) = x := by
    intro x hx
    simp [getStorageUrl, hhttp x hx, hx]
  refine ⟨rfl, by simp [getStorageUrl], hid p, ?_, ?_⟩
  · intro hp hb
    have heq : getStorageUrl supabaseUrl (some p)
        = supabaseUrl ++ STORAGE_PATH ++ cleanPath p := by
      simp [getStorageUrl, hp, hb]
    refine ⟨heq, ?_⟩
    rw [heq, List.append_assoc]
    exact hbuilt (STORAGE_PATH ++ cleanPath p)
  · intro q
    cases q with
    | none => simp [getStorageUrl]
    | some x =>
        by_cases hx : x = []
        · subst hx; simp [getStorageUrl]
        · by_cases hb : (strStarts HTTP x || strStarts HTTPS x) = true
          · rw [hid x hb, hid x hb]
          · have hb2 : (strStarts HTTP x || strStarts HTTPS x) = false := by
              simpa using hb
            have heq : getStorageUrl supabaseUrl (some x)
                = supabaseUrl ++ STORAGE_PATH ++ cleanPath x := by
              simp [getStorageUrl, hx, hb2]
            rw [heq, List.append_assoc]
            exact hid _ (hbuilt (STORAGE_PATH ++ cleanPath x))

/-- Witness for C10: idempotence at a relative path under a concrete
Supabase base URL. -/
theorem C10_getStorageUrl_total_idempotent_witness :
    getStorageUrl ("https://example.supabase.co".toList)
        (some (getStorageUrl ("https://example.supabase.co".toList)
          (some ("uploads/report.png".toList))))
      = getStorageUrl ("https://example.supabase.co".toList)
          (some ("uploads/report.png".toList)) :=
  (C10_getStorageUrl_total_idempotent ("https://example.supabase.co".toList)
      ("uploads/report.png".toList) (Or.inr (by decide))).2.2.2.2
    (some ("uploads/report.png".toList))
